import Mathlib

/-!
Shallow embedding of `actions/update-helm-chart/update_helm_chart.py`.

The script parses a semantic version out of a release tag, classifies the
release (major/minor/patch/none) against the chart's recorded `appVersion`,
bumps the chart `version` accordingly, optionally cascades the bump to a
parent chart, and reports the outcome.

Modelling conventions:
* Python strings are `String`; Python ints are `Nat` (they are produced by
  `int()` on digit strings, hence non-negative, and Python ints are
  arbitrary-precision, so no modular arithmetic is needed).
* `\d` of the regex `(\d+)\.(\d+)\.(\d+)` is modelled as ASCII digits.
* A YAML document (the result of `yaml.safe_load`) is an insertion-ordered
  mapping, modelled as `List (String × YVal)` (`yaml.safe_dump` with
  `sort_keys=False` preserves that order).  A scalar value is either a
  string or some non-string Python value; for a non-string value we record
  its truthiness (used by `if not old_version:`) and its `str()` rendering.
* The filesystem holding the chart documents is a map from path to
  document (`none` = file absent; an empty file loads as the empty
  mapping, i.e. `some []`).  Functions that may write to disk thread the
  filesystem through and return it alongside an `Except` result, with the
  write placed exactly where `dump_yaml` is called in the source.  The
  JSON result file and the GITHUB_OUTPUT file live outside this map; they
  are represented by the returned payload.
* Exceptions become an `Err` inductive.  `Err.typeError` stands for the
  Python `TypeError` raised by `re.search` on a non-string, truthy
  `appVersion` value (it escapes the `except ChartUpdateError` handlers).
-/

namespace UpdateHelmChart

/-- Errors raised by the script (constructors carry the data the Python
error messages interpolate). -/
inductive Err where
  | noSemverFound (source : String)
  | downgradeRejected (newV oldV : Nat × Nat × Nat)
  | missingMetadataFile (path : String)
  | missingVersionField
  | unsupportedReleaseType (rt : String)
  | typeError
deriving DecidableEq, Repr

/-- A YAML scalar: a string, or a non-string value with its Python
truthiness and `str()` rendering. -/
inductive YVal where
  | str (s : String)
  | other (truthy : Bool) (rendered : String)
deriving DecidableEq, Repr

/-- `str(v)` for a YAML value. -/
def YVal.toStr : YVal → String
  | .str s => s
  | .other _ r => r

/-- A loaded YAML document: an insertion-ordered key/value mapping. -/
abbrev Doc := List (String × YVal)

/-- The filesystem restricted to chart documents. -/
abbrev FS := String → Option Doc

/-- `dict.get(k)`: first value bound to `k`. -/
def lookupKey : Doc → String → Option YVal
  | [], _ => none
  | (k, v) :: t, key => if k = key then some v else lookupKey t key

/-- `k in dict`. -/
def containsKey (d : Doc) (key : String) : Bool :=
  d.any (fun kv => kv.1 = key)

/-- `dict[k] = v` for a key already present: replace the value in place,
keeping the insertion order. -/
def setKey (d : Doc) (key : String) (v : YVal) : Doc :=
  d.map (fun kv => if kv.1 = key then (kv.1, v) else kv)

/-- Overwrite the document stored at `path`. -/
def fsWrite (fs : FS) (path : String) (d : Doc) : FS :=
  fun q => if q = path then some d else fs q

/-- Value of the digit string read in base 10 (`int()` of the match group). -/
def digitsToNat (ds : List Char) : Nat :=
  ds.foldl (fun n c => 10 * n + (c.toNat - 48)) 0

/-- Attempt of `(\d+)\.(\d+)\.(\d+)` anchored at the start of `cs`: each
`\d+` takes the maximal digit run (greedy; backtracking cannot help, since a
shorter run is followed by a digit, never by the required dot). Returns the
matched characters and the parsed triple. -/
def matchSemverAt (cs : List Char) : Option (List Char × (Nat × Nat × Nat)) :=
  let p1 := cs.span Char.isDigit
  if p1.1.isEmpty then none else
  match p1.2 with
  | '.' :: r2 =>
    let p2 := r2.span Char.isDigit
    if p2.1.isEmpty then none else
    match p2.2 with
    | '.' :: r4 =>
      let p3 := r4.span Char.isDigit
      if p3.1.isEmpty then none
      else some (p1.1 ++ '.' :: p2.1 ++ '.' :: p3.1,
                 (digitsToNat p1.1, digitsToNat p2.1, digitsToNat p3.1))
    | _ => none
  | _ => none

/-- `re.search`: try every start position left to right, first match wins. -/
def searchSemver : List Char → Option (List Char × (Nat × Nat × Nat))
  | [] => none
  | c :: cs =>
    match matchSemverAt (c :: cs) with
    | some r => some r
    | none => searchSemver cs

/-- `extract_semver`: first `N.N.N` occurrence in the string, as the matched
substring and the parsed `(major, minor, patch)` triple. -/
def extract_semver (version_source : String) :
    Except Err (String × (Nat × Nat × Nat)) :=
  match searchSemver version_source.data with
  | none => .error (.noSemverFound version_source)
  | some (m, t) => .ok (String.mk m, t)

/-- Python tuple `<` on version triples: lexicographic. -/
def tupleLt (a b : Nat × Nat × Nat) : Bool :=
  decide (a.1 < b.1 ∨ (a.1 = b.1 ∧ (a.2.1 < b.2.1 ∨ (a.2.1 = b.2.1 ∧ a.2.2 < b.2.2))))

/-- Lexicographic `≤` on version triples. -/
def tupleLe (a b : Nat × Nat × Nat) : Bool :=
  tupleLt a b || decide (a = b)

/-- `if not old_version:` — Python truthiness of the `appVersion` value. -/
def pyTruthy : Option YVal → Bool
  | none => false
  | some (.str s) => !(s == "")
  | some (.other t _) => t

/-- `determine_release_type`: classify the change from `old_version` to
`new_version_tuple`.  Falsy or unparsable previous versions classify as
`patch`; downgrades are rejected; otherwise the first differing component
(major, then minor, then patch) names the type, `none` if equal.  A truthy
non-string previous value makes `re.search` raise `TypeError`. -/
def determine_release_type (old_version : Option YVal)
    (new_version_tuple : Nat × Nat × Nat) : Except Err String :=
  if pyTruthy old_version = false then .ok "patch"
  else
    match old_version with
    | some (.str s) =>
      match extract_semver s with
      | .error _ => .ok "patch"
      | .ok (_, old_tuple) =>
        if tupleLt new_version_tuple old_tuple then
          .error (.downgradeRejected new_version_tuple old_tuple)
        else if new_version_tuple.1 ≠ old_tuple.1 then .ok "major"
        else if new_version_tuple.2.1 ≠ old_tuple.2.1 then .ok "minor"
        else if new_version_tuple.2.2 ≠ old_tuple.2.2 then .ok "patch"
        else .ok "none"
    | _ => .error Err.typeError

/-- `f"{a}.{b}.{c}"` for the bumped components. -/
def formatVer (a b c : Nat) : String :=
  toString a ++ "." ++ toString b ++ "." ++ toString c

/-- `bump_semver`: increment the version parsed out of `version` according
to `release_type`; any type outside major/minor/patch is an error. -/
def bump_semver (version : String) (release_type : String) : Except Err String :=
  match extract_semver version with
  | .error e => .error e
  | .ok (_, (major, minor, patch)) =>
    if release_type = "major" then .ok (formatVer (major + 1) 0 0)
    else if release_type = "minor" then .ok (formatVer major (minor + 1) 0)
    else if release_type = "patch" then .ok (formatVer major minor (patch + 1))
    else .error (.unsupportedReleaseType release_type)

/-- `load_yaml`: error if the path is absent, else the parsed mapping. -/
def load_yaml (fs : FS) (path : String) : Except Err Doc :=
  match fs path with
  | none => .error (.missingMetadataFile path)
  | some d => .ok d

/-- `ensure_chart_version`: the `version` value must be a string. -/
def ensure_chart_version (chart : Doc) : Except Err String :=
  match lookupKey chart "version" with
  | some (.str v) => .ok v
  | _ => .error .missingVersionField

/-- Result record of one chart update. -/
structure ChartUpdateResult where
  old_app_version : String
  new_app_version : String
  old_chart_version : String
  new_chart_version : String
  release_type : String
  chart_modified : Bool
deriving DecidableEq, Repr

/-- `str(old_app_version) if old_app_version is not None else ""`. -/
def optStr : Option YVal → String
  | none => ""
  | some v => v.toStr

/-- `update_chart`: load the chart at `chart_path`, resolve the effective
release type (classifying when the caller passed `"auto"`), and if it is not
`"none"`, rewrite `appVersion` (when present) and the bumped `version` and
write the document back.  The filesystem is threaded; the write happens
exactly where `dump_yaml` is called in the source, after all reads,
validations and version computations. -/
def update_chart (fs : FS) (chart_path : String) (new_version : String)
    (release_type : String) : FS × Except Err ChartUpdateResult :=
  match load_yaml fs chart_path with
  | .error e => (fs, .error e)
  | .ok chart =>
    let old_app_version := lookupKey chart "appVersion"
    match ensure_chart_version chart with
    | .error e => (fs, .error e)
    | .ok old_chart_version =>
      match extract_semver new_version with
      | .error e => (fs, .error e)
      | .ok (_, new_version_tuple) =>
        match (if release_type = "auto" then
                 determine_release_type old_app_version new_version_tuple
               else .ok release_type) with
        | .error e => (fs, .error e)
        | .ok effective_release_type =>
          if effective_release_type ≠ "none" then
            let chart1 := if containsKey chart "appVersion" then
                            setKey chart "appVersion" (.str new_version)
                          else chart
            match bump_semver old_chart_version effective_release_type with
            | .error e => (fs, .error e)
            | .ok new_chart_version =>
              (fsWrite fs chart_path (setKey chart1 "version" (.str new_chart_version)),
               .ok { old_app_version := optStr old_app_version
                     new_app_version := new_version
                     old_chart_version := old_chart_version
                     new_chart_version := new_chart_version
                     release_type := effective_release_type
                     chart_modified := true })
          else
            (fs, .ok { old_app_version := optStr old_app_version
                       new_app_version := new_version
                       old_chart_version := old_chart_version
                       new_chart_version := old_chart_version
                       release_type := effective_release_type
                       chart_modified := false })

/-- Python `str.strip()` (whitespace removed at both ends). -/
def pyStrip (s : String) : String :=
  String.mk
    (((s.data.dropWhile Char.isWhitespace).reverse.dropWhile
        Char.isWhitespace).reverse)

/-- branch-slug characters: `[a-z0-9]`. -/
def isSlugChar (c : Char) : Bool :=
  ('a' ≤ c && c ≤ 'z') || ('0' ≤ c && c ≤ '9')

/-- `re.sub(r"[^a-z0-9]+", "-", s)`: every maximal run of non-slug
characters becomes one hyphen.  The fold tracks whether the previous
character was already folded into a hyphen. -/
def collapseNonSlug (l : List Char) : List Char :=
  (l.foldl
    (fun (acc : List Char × Bool) c =>
      if isSlugChar c then (c :: acc.1, false)
      else if acc.2 then acc else ('-' :: acc.1, true))
    ([], false)).1.reverse

/-- `.strip("-")`. -/
def stripHyphens (l : List Char) : List Char :=
  ((l.dropWhile (fun c => c = '-')).reverse.dropWhile (fun c => c = '-')).reverse

/-- `compute_branch_name`: `update-<slug>-<version>` with the documented
fallbacks (extract from the release tag, then `"latest"`; empty slug becomes
`"app"`). -/
def compute_branch_name (app_name : String) (app_version : Option String)
    (release_tag : Option String) : String :=
  let version := pyStrip (app_version.getD "")
  let version :=
    if version = "" then
      match extract_semver (release_tag.getD "") with
      | .ok (v, _) => v
      | .error _ => "latest"
    else version
  let slug0 := stripHyphens (collapseNonSlug (app_name.data.map Char.toLower))
  let slug := if slug0.isEmpty then "app" else String.mk slug0
  "update-" ++ slug ++ "-" ++ version

/-- Command-line arguments (after `argparse`; optional flags default to `""`). -/
structure Args where
  helm_repo_dir : String
  chart_file : String
  parent_chart_file : String
  release_tag : String
  result_file : String
  app_name : String
  github_output : String
deriving Repr

/-- `helm_repo_dir / chart_file` (path resolution modelled as joining). -/
def joinPath (base file : String) : String := base ++ "/" ++ file

/-- The `parent_chart_update` entry of the payload. -/
structure ParentUpdate where
  path : String
  old_version : String
  new_version : String
deriving DecidableEq, Repr

/-- The JSON result payload assembled by `handle_update`. -/
structure Payload where
  old_app_version : String
  new_app_version : String
  old_chart_version : String
  new_chart_version : String
  release_type : String
  chart_modified : Bool
  parent_chart_update : Option ParentUpdate
  branch_name : String
  has_changes : Bool
deriving DecidableEq, Repr

/-- Assemble the result payload out of the primary result, the parent
update entry and the branch name. -/
def mkPayload (result : ChartUpdateResult) (parent_update : Option ParentUpdate)
    (branch_name : String) : Payload :=
  { old_app_version := result.old_app_version
    new_app_version := result.new_app_version
    old_chart_version := result.old_chart_version
    new_chart_version := result.new_chart_version
    release_type := result.release_type
    chart_modified := result.chart_modified
    parent_chart_update := parent_update
    branch_name := branch_name
    has_changes := result.chart_modified || parent_update.isSome }

/-- `handle_update`: extract the tag's version, update the primary chart
with release type `"auto"`, cascade to the parent chart (when supplied and
the primary change was not `"none"`) with the release type forced to the
primary's resolved type, and assemble the payload. -/
def handle_update (fs : FS) (args : Args) : FS × Except Err Payload :=
  let chart_path := joinPath args.helm_repo_dir args.chart_file
  match extract_semver args.release_tag with
  | .error e => (fs, .error e)
  | .ok (new_version, _) =>
    match update_chart fs chart_path new_version "auto" with
    | (fs1, .error e) => (fs1, .error e)
    | (fs1, .ok result) =>
      let parent_chart_file := pyStrip args.parent_chart_file
      let branch_name :=
        if args.app_name ≠ "" then
          compute_branch_name args.app_name (some result.new_app_version)
            (some args.release_tag)
        else ""
      if parent_chart_file ≠ "" ∧ result.release_type ≠ "none" then
        match update_chart fs1 (joinPath args.helm_repo_dir parent_chart_file)
            new_version result.release_type with
        | (fs2, .error e) => (fs2, .error e)
        | (fs2, .ok parent_result) =>
          let parent_update :=
            if parent_result.chart_modified then
              some { path := parent_chart_file
                     old_version := parent_result.old_chart_version
                     new_version := parent_result.new_chart_version : ParentUpdate }
            else none
          (fs2, .ok (mkPayload result parent_update branch_name))
      else
        (fs1, .ok (mkPayload result none branch_name))

/-- `main`: run `handle_update`, mapping success to exit code 0 and any
`ChartUpdateError` to exit code 1 (the document filesystem is returned as
left by the run). -/
def main (fs : FS) (args : Args) : FS × Nat :=
  match handle_update fs args with
  | (fs', .ok _) => (fs', 0)
  | (fs', .error _) => (fs', 1)

/-- Spec-side classification, written from the spec's words: "compare
component-by-component in order major, minor, patch; the type is the name of
the first component that differs; if all three are equal, the type is
`none`". -/
def classifySpec (o n : Nat × Nat × Nat) : String :=
  if o.1 ≠ n.1 then "major"
  else if o.2.1 ≠ n.2.1 then "minor"
  else if o.2.2 ≠ n.2.2 then "patch"
  else "none"

lemma extract_ok_ne_empty {s : String} {x : String × (Nat × Nat × Nat)}
    (h : extract_semver s = .ok x) : s ≠ "" := by
  intro hs
  subst hs
  exact Except.noConfusion h

lemma tupleLt_irrefl (t : Nat × Nat × Nat) : tupleLt t t = false := by
  simp [tupleLt]

lemma tupleLe_not_lt {a b : Nat × Nat × Nat} (h : tupleLe a b = true) :
    tupleLt b a = false := by
  rcases a with ⟨a1, a2, a3⟩
  rcases b with ⟨b1, b2, b3⟩
  simp only [tupleLe, tupleLt, Bool.or_eq_true, decide_eq_true_eq, Prod.mk.injEq] at h
  simp only [tupleLt, decide_eq_false_iff_not, Prod.mk.injEq]
  omega

/-- Characterization of the classifier on a parsable previous version:
reject downgrades, otherwise return the first differing component. -/
lemma determine_char {s ms : String} {ot : Nat × Nat × Nat}
    (nt : Nat × Nat × Nat) (hx : extract_semver s = .ok (ms, ot)) :
    determine_release_type (some (.str s)) nt =
      if tupleLt nt ot then .error (.downgradeRejected nt ot)
      else .ok (classifySpec ot nt) := by
  have hs : s ≠ "" := extract_ok_ne_empty hx
  unfold determine_release_type
  have ht : pyTruthy (some (.str s)) = true := by
    simp [pyTruthy, hs]
  rw [ht]
  simp only [Bool.true_eq_false, if_false, hx]
  rcases ot with ⟨o1, o2, o3⟩
  rcases nt with ⟨n1, n2, n3⟩
  by_cases hlt : tupleLt (n1, n2, n3) (o1, o2, o3)
  · simp [hlt]
  · simp only [Bool.not_eq_true] at hlt
    simp only [hlt, Bool.false_eq_true, if_false]
    simp only [classifySpec]
    split_ifs <;> first | rfl | (exfalso; omega)

/-- Claim C1: for every previous version string containing a parsable semver
triple `old` and every new triple `new` with `old` lexicographically less
than or equal to `new`, the release classifier succeeds and returns the name
of the first component (major, minor, patch order) in which the triples
differ, and `none` when all three are equal. -/
theorem C1_classifier_first_diff (s ms : String) (ot nt : Nat × Nat × Nat)
    (hx : extract_semver s = .ok (ms, ot)) (hle : tupleLe ot nt = true) :
    determine_release_type (some (.str s)) nt = .ok (classifySpec ot nt) := by
  rw [determine_char nt hx, tupleLe_not_lt hle]
  simp

theorem C1_classifier_first_diff_witness :
    (extract_semver "1.2.3" = .ok ("1.2.3", (1, 2, 3))
      ∧ tupleLe (1, 2, 3) (1, 3, 0) = true
      ∧ determine_release_type (some (.str "1.2.3")) (1, 3, 0)
          = .ok (classifySpec (1, 2, 3) (1, 3, 0)))
    ∧ determine_release_type (some (.str "1.2.3")) (1, 2, 3)
        = .ok (classifySpec (1, 2, 3) (1, 2, 3)) :=
  ⟨⟨rfl, rfl, C1_classifier_first_diff "1.2.3" "1.2.3" (1, 2, 3) (1, 3, 0) rfl rfl⟩,
    C1_classifier_first_diff "1.2.3" "1.2.3" (1, 2, 3) (1, 2, 3) rfl rfl⟩

/-- Characterization of the bumper on a parsable version string. -/
lemma bump_char {v ms : String} {M m p : Nat}
    (hx : extract_semver v = .ok (ms, (M, m, p))) (rt : String) :
    bump_semver v rt =
      if rt = "major" then .ok (formatVer (M + 1) 0 0)
      else if rt = "minor" then .ok (formatVer M (m + 1) 0)
      else if rt = "patch" then .ok (formatVer M m (p + 1))
      else .error (.unsupportedReleaseType rt) := by
  unfold bump_semver
  rw [hx]

/-- Claim C2: for every version string containing a parsable triple
`(major, minor, patch)`, the bumper returns exactly `(major+1).0.0` for
release type `major`, `major.(minor+1).0` for `minor`, and
`major.minor.(patch+1)` for `patch`; every other release type (including
`none` and `auto`) fails with the `UnsupportedReleaseType` error. -/
theorem C2_bumper (v ms : String) (M m p : Nat)
    (hx : extract_semver v = .ok (ms, (M, m, p))) (rt : String) :
    bump_semver v rt =
      if rt = "major" then .ok (formatVer (M + 1) 0 0)
      else if rt = "minor" then .ok (formatVer M (m + 1) 0)
      else if rt = "patch" then .ok (formatVer M m (p + 1))
      else .error (.unsupportedReleaseType rt) :=
  bump_char hx rt

theorem C2_bumper_witness :
    (extract_semver "2.3.4" = .ok ("2.3.4", (2, 3, 4))
      ∧ bump_semver "2.3.4" "minor" = .ok "2.4.0")
    ∧ bump_semver "2.3.4" "none" = .error (.unsupportedReleaseType "none")
    ∧ bump_semver "2.3.4" "auto" = .error (.unsupportedReleaseType "auto") :=
  ⟨⟨rfl, by rw [C2_bumper "2.3.4" "2.3.4" 2 3 4 rfl "minor"]; rfl⟩,
    by rw [C2_bumper "2.3.4" "2.3.4" 2 3 4 rfl "none"]; rfl,
    by rw [C2_bumper "2.3.4" "2.3.4" 2 3 4 rfl "auto"]; rfl⟩

/-- Claim C8: if the previous version is absent, empty, or contains no
parsable semver triple, the classifier returns `patch` without raising any
error, for every new version triple. -/
theorem C8_fresh_baseline_patch (old : Option YVal) (nt : Nat × Nat × Nat)
    (h : old = none
      ∨ ∃ s, old = some (.str s) ∧ (s = "" ∨ ∃ e, extract_semver s = .error e)) :
    determine_release_type old nt = .ok "patch" := by
  rcases h with h | ⟨s, rfl, hs⟩
  · subst h
    rfl
  · rcases hs with rfl | ⟨e, he⟩
    · rfl
    · unfold determine_release_type
      by_cases hse : s = ""
      · subst hse
        rfl
      · have ht : pyTruthy (some (.str s)) = true := by simp [pyTruthy, hse]
        rw [ht]
        simp only [Bool.true_eq_false, if_false, he]

theorem C8_fresh_baseline_patch_witness :
    ((some (YVal.str "not-a-version") = none
        ∨ ∃ s, some (YVal.str "not-a-version") = some (.str s)
            ∧ (s = "" ∨ ∃ e, extract_semver s = .error e))
      ∧ determine_release_type (some (.str "not-a-version")) (9, 9, 9) = .ok "patch")
    ∧ determine_release_type none (1, 2, 3) = .ok "patch" :=
  ⟨⟨Or.inr ⟨"not-a-version", rfl, Or.inr ⟨.noSemverFound "not-a-version", rfl⟩⟩,
      C8_fresh_baseline_patch (some (.str "not-a-version")) (9, 9, 9)
        (Or.inr ⟨"not-a-version", rfl, Or.inr ⟨.noSemverFound "not-a-version", rfl⟩⟩)⟩,
    C8_fresh_baseline_patch none (1, 2, 3) (Or.inl rfl)⟩

/-- Filesystem of the spec's downgrade scenario: one chart document with
`appVersion: "2.0.0"` and `version: "0.9.0"`. -/
def downgradeFS : FS := fun q =>
  if q = "repo/Chart.yaml" then
    some [("appVersion", YVal.str "2.0.0"), ("version", YVal.str "0.9.0")]
  else none

/-- Arguments of the spec's downgrade scenario: tag `v1.0.0` against the
document above, no parent chart, no extras. -/
def downgradeArgs : Args :=
  { helm_repo_dir := "repo", chart_file := "Chart.yaml", parent_chart_file := ""
    release_tag := "v1.0.0", result_file := "", app_name := ""
    github_output := "" }

/-- Claim C3: for every parsable previous triple `old` and new triple `new`,
the classifier fails (with the `DowngradeRejected` error naming both
triples) if and only if `new` is lexicographically less than `old`; and in
the top-level downgrade scenario (tag `v1.0.0` against a document with
`appVersion: 2.0.0`) the metadata document on disk is left unchanged and the
process exits with code 1. -/
theorem C3_downgrade_rejected (s ms : String) (ot nt : Nat × Nat × Nat)
    (hx : extract_semver s = .ok (ms, ot)) :
    ((∃ e, determine_release_type (some (.str s)) nt = .error e)
        ↔ tupleLt nt ot = true)
    ∧ (tupleLt nt ot = true →
        determine_release_type (some (.str s)) nt
          = .error (.downgradeRejected nt ot))
    ∧ main downgradeFS downgradeArgs = (downgradeFS, 1) := by
  have hc := determine_char nt hx
  refine ⟨⟨?_, ?_⟩, ?_, ?_⟩
  · rintro ⟨e, he⟩
    by_contra hlt
    simp only [Bool.not_eq_true] at hlt
    rw [hc] at he
    simp [hlt] at he
  · intro hlt
    refine ⟨.downgradeRejected nt ot, ?_⟩
    rw [hc]
    simp [hlt]
  · intro hlt
    rw [hc]
    simp [hlt]
  · rfl

theorem C3_downgrade_rejected_witness :
    extract_semver "2.0.0" = .ok ("2.0.0", (2, 0, 0))
    ∧ tupleLt (1, 0, 0) (2, 0, 0) = true
    ∧ determine_release_type (some (.str "2.0.0")) (1, 0, 0)
        = .error (.downgradeRejected (1, 0, 0) (2, 0, 0)) :=
  ⟨rfl, rfl,
    (C3_downgrade_rejected "2.0.0" "2.0.0" (2, 0, 0) (1, 0, 0) rfl).2.1 rfl⟩

/-- Claim C6: for every document whose effective release type resolves to
`none`, the update performs no mutation: the filesystem is unchanged (no
write to disk), the returned new chart version equals the existing one, and
`chart_modified` is false. -/
theorem C6_none_is_noop (fs : FS) (p nv rt : String) (fs' : FS)
    (r : ChartUpdateResult) (h : update_chart fs p nv rt = (fs', .ok r))
    (hn : r.release_type = "none") :
    fs' = fs ∧ r.new_chart_version = r.old_chart_version
      ∧ r.chart_modified = false := by
  unfold update_chart at h
  repeat' split at h
  all_goals simp_all
  all_goals aesop

theorem C6_none_is_noop_witness :
    update_chart downgradeFS "repo/Chart.yaml" "2.0.0" "auto"
      = (downgradeFS,
          .ok { old_app_version := "2.0.0", new_app_version := "2.0.0"
                old_chart_version := "0.9.0", new_chart_version := "0.9.0"
                release_type := "none", chart_modified := false })
    ∧ downgradeFS = downgradeFS
    ∧ ("0.9.0" : String) = "0.9.0"
    ∧ (false : Bool) = false :=
  ⟨rfl,
    (C6_none_is_noop downgradeFS "repo/Chart.yaml" "2.0.0" "auto" downgradeFS
      { old_app_version := "2.0.0", new_app_version := "2.0.0"
        old_chart_version := "0.9.0", new_chart_version := "0.9.0"
        release_type := "none", chart_modified := false } rfl rfl).1,
    (C6_none_is_noop downgradeFS "repo/Chart.yaml" "2.0.0" "auto" downgradeFS
      { old_app_version := "2.0.0", new_app_version := "2.0.0"
        old_chart_version := "0.9.0", new_chart_version := "0.9.0"
        release_type := "none", chart_modified := false } rfl rfl).2⟩

/-- Claim C7: every failing invocation of the single-document update leaves
the metadata filesystem exactly as it was — the write happens only after
every read, validation and version computation has succeeded. -/
theorem C7_failure_leaves_file_untouched (fs : FS) (p nv rt : String)
    (fs' : FS) (e : Err) (h : update_chart fs p nv rt = (fs', .error e)) :
    fs' = fs := by
  unfold update_chart at h
  repeat' split at h
  iterate 4
    all_goals try simp_all
    all_goals try split at h

theorem C7_failure_leaves_file_untouched_witness :
    update_chart downgradeFS "repo/Chart.yaml" "1.0.0" "auto"
      = (downgradeFS, .error (.downgradeRejected (1, 0, 0) (2, 0, 0)))
    ∧ downgradeFS = downgradeFS :=
  ⟨rfl,
    C7_failure_leaves_file_untouched downgradeFS "repo/Chart.yaml" "1.0.0"
      "auto" downgradeFS (.downgradeRejected (1, 0, 0) (2, 0, 0)) rfl⟩

/-- Claim C9: for every pair of parsable versions with `old` ≤ `new`
(lexicographically) and `classify(old, new)` not `none`, bumping `old` by
`classify(old, new)` yields a version whose triple is ≥ `old`; and when
`new` is a single-unit increment of `old` in exactly one component (lower
components reset), the bump reproduces exactly `new`. -/
theorem C9_bump_classify_roundtrip (os ms : String) (M m p : Nat)
    (nt : Nat × Nat × Nat) (rt : String)
    (hx : extract_semver os = .ok (ms, (M, m, p)))
    (hc : determine_release_type (some (.str os)) nt = .ok rt)
    (hn : rt ≠ "none") :
    (∃ t : Nat × Nat × Nat,
        bump_semver os rt = .ok (formatVer t.1 t.2.1 t.2.2)
          ∧ tupleLe (M, m, p) t = true)
    ∧ (nt = (M + 1, 0, 0) ∨ nt = (M, m + 1, 0) ∨ nt = (M, m, p + 1) →
        bump_semver os rt = .ok (formatVer nt.1 nt.2.1 nt.2.2)) := by
  have hb := bump_char hx
  rw [determine_char nt hx] at hc
  by_cases hlt : tupleLt nt (M, m, p)
  · rw [if_pos hlt] at hc
    exact Except.noConfusion hc
  · rw [if_neg hlt] at hc
    rw [Except.ok.injEq] at hc
    subst hc
    rcases nt with ⟨n1, n2, n3⟩
    simp only [classifySpec] at hn ⊢
    split_ifs at hn ⊢ with e1 e2 e3
    · refine ⟨⟨(M + 1, 0, 0), ?_, ?_⟩, ?_⟩
      · rw [hb]
        rfl
      · simp only [tupleLe, tupleLt, Bool.or_eq_true, decide_eq_true_eq,
          Prod.mk.injEq, true_and]
        omega
      · rintro (h | h | h) <;>
          simp only [Prod.mk.injEq] at h <;>
          [skip; exact absurd h.1.symm e1; exact absurd h.1.symm e1]
        obtain ⟨rfl, rfl, rfl⟩ := h
        rw [hb]
        rfl
    · refine ⟨⟨(M, m + 1, 0), ?_, ?_⟩, ?_⟩
      · rw [hb]
        rfl
      · simp only [tupleLe, tupleLt, Bool.or_eq_true, decide_eq_true_eq,
          Prod.mk.injEq, true_and]
        omega
      · rintro (h | h | h) <;>
          simp only [Prod.mk.injEq] at h <;>
          [(exfalso; omega); skip; (exfalso; omega)]
        obtain ⟨rfl, rfl, rfl⟩ := h
        rw [hb]
        rfl
    · refine ⟨⟨(M, m, p + 1), ?_, ?_⟩, ?_⟩
      · rw [hb]
        rfl
      · simp only [tupleLe, tupleLt, Bool.or_eq_true, decide_eq_true_eq,
          Prod.mk.injEq, true_and]
        omega
      · rintro (h | h | h) <;>
          simp only [Prod.mk.injEq] at h <;>
          [(exfalso; omega); (exfalso; omega); skip]
        obtain ⟨rfl, rfl, rfl⟩ := h
        rw [hb]
        rfl
    · exact absurd rfl hn

theorem C9_bump_classify_roundtrip_witness :
    (extract_semver "1.2.3" = .ok ("1.2.3", (1, 2, 3))
      ∧ determine_release_type (some (.str "1.2.3")) (1, 2, 4) = .ok "patch"
      ∧ ("patch" : String) ≠ "none")
    ∧ ((∃ t : Nat × Nat × Nat,
          bump_semver "1.2.3" "patch" = .ok (formatVer t.1 t.2.1 t.2.2)
            ∧ tupleLe (1, 2, 3) t = true)
        ∧ ((1, 2, 4) = (1 + 1, 0, 0) ∨ (1, 2, 4) = (1, 2 + 1, 0)
              ∨ (1, 2, 4) = (1, 2, 3 + 1) →
            bump_semver "1.2.3" "patch" = .ok (formatVer 1 2 4))) :=
  ⟨⟨rfl, rfl, by decide⟩,
    C9_bump_classify_roundtrip "1.2.3" "1.2.3" 1 2 3 (1, 2, 4) "patch" rfl rfl
      (by decide)⟩

/-- Entry-wise frame relation between a document and its updated form: the
key is unchanged, and every entry whose key is neither `appVersion` nor
`version` is entirely unchanged. -/
def FrameRel (a b : String × YVal) : Prop :=
  a.1 = b.1 ∧ (a.1 ≠ "appVersion" → a.1 ≠ "version" → b = a)

lemma forall2_frame_refl (d : Doc) : List.Forall₂ FrameRel d d := by
  induction d with
  | nil => exact List.Forall₂.nil
  | cons x t ih => exact List.Forall₂.cons ⟨rfl, fun _ _ => rfl⟩ ih

lemma forall2_frame_setKey (d : Doc) (k : String) (v : YVal)
    (hk : k = "appVersion" ∨ k = "version") :
    List.Forall₂ FrameRel d (setKey d k v) := by
  induction d with
  | nil => exact List.Forall₂.nil
  | cons x t ih =>
    have hcons : setKey (x :: t) k v
        = (if x.1 = k then (x.1, v) else x) :: setKey t k v := rfl
    rw [hcons]
    refine List.Forall₂.cons ⟨?_, ?_⟩ ih
    · by_cases hx : x.1 = k
      · simp [hx]
      · simp [hx]
    · intro h1 h2
      have hx : x.1 ≠ k := by
        rcases hk with rfl | rfl
        · exact h1
        · exact h2
      simp [hx]

lemma forall2_frame_trans {d1 d2 d3 : Doc}
    (h12 : List.Forall₂ FrameRel d1 d2) (h23 : List.Forall₂ FrameRel d2 d3) :
    List.Forall₂ FrameRel d1 d3 := by
  induction h12 generalizing d3 with
  | nil =>
    cases h23
    exact List.Forall₂.nil
  | cons hab h ih =>
    cases h23 with
    | cons hbc h' =>
      refine List.Forall₂.cons ⟨hab.1.trans hbc.1, ?_⟩ (ih h')
      intro h1 h2
      have hb := hab.2 h1 h2
      have hc := hbc.2 (hab.1 ▸ h1) (hab.1 ▸ h2)
      rw [hc, hb]

lemma forall2_frame_containsKey {d d' : Doc}
    (h : List.Forall₂ FrameRel d d') (k : String) :
    containsKey d' k = containsKey d k := by
  induction h with
  | nil => rfl
  | cons hab h ih =>
    simp only [containsKey, List.any_cons] at ih ⊢
    rw [hab.1, ih]

/-- Claim C10: a successful update changes at most the `appVersion` and
`version` entries of the document mapping: the key sequence is preserved
entry by entry (no key added, removed or reordered), every entry under any
other key keeps its value, and a document lacking an `appVersion` key still
lacks one afterwards. -/
theorem C10_update_touches_only_versions (fs : FS) (p nv rt : String)
    (fs' : FS) (r : ChartUpdateResult) (doc : Doc)
    (h : update_chart fs p nv rt = (fs', .ok r)) (hd : fs p = some doc) :
    ∃ doc', fs' p = some doc'
      ∧ List.Forall₂ FrameRel doc doc'
      ∧ (containsKey doc "appVersion" = false →
          containsKey doc' "appVersion" = false) := by
  have hl : load_yaml fs p = .ok doc := by simp [load_yaml, hd]
  simp only [update_chart, hl] at h
  rcases he : ensure_chart_version doc with e | ocv <;> simp only [he] at h
  · simp at h
  rcases hx : extract_semver nv with e | mt <;> simp only [hx] at h
  · simp at h
  rcases mt with ⟨ms, nvt⟩
  rcases hdet : (if rt = "auto" then
      determine_release_type (lookupKey doc "appVersion") nvt
    else Except.ok rt) with e | eff <;> simp only [hdet] at h
  · simp at h
  by_cases heff : eff = "none"
  · subst heff
    simp only [ne_eq, not_true_eq_false, if_false, Prod.mk.injEq,
      Except.ok.injEq] at h
    obtain ⟨hfs, -⟩ := h
    subst hfs
    exact ⟨doc, hd, forall2_frame_refl doc,
      fun hc => hc⟩
  · rcases hb : bump_semver ocv eff with e | ncv
    · rw [if_pos heff] at h
      rw [hb] at h
      simp at h
    · rw [if_pos heff] at h
      rw [hb] at h
      simp only [Prod.mk.injEq, Except.ok.injEq] at h
      obtain ⟨hfs, -⟩ := h
      subst hfs
      by_cases hck : containsKey doc "appVersion"
      · rw [if_pos hck]
        refine ⟨setKey (setKey doc "appVersion" (.str nv)) "version" (.str ncv),
          by simp [fsWrite], ?_, ?_⟩
        · exact forall2_frame_trans
            (forall2_frame_setKey doc "appVersion" (.str nv) (Or.inl rfl))
            (forall2_frame_setKey _ "version" (.str ncv) (Or.inr rfl))
        · intro hc
          rw [hck] at hc
          exact absurd hc (by simp)
      · rw [if_neg hck]
        refine ⟨setKey doc "version" (.str ncv), by simp [fsWrite], ?_, ?_⟩
        · exact forall2_frame_setKey doc "version" (.str ncv) (Or.inr rfl)
        · intro _
          rw [forall2_frame_containsKey
            (forall2_frame_setKey doc "version" (.str ncv) (Or.inr rfl)) _]
          simpa using hck

lemma containsKey_of_lookup {d : Doc} {k : String} {v : YVal}
    (h : lookupKey d k = some v) : containsKey d k = true := by
  induction d with
  | nil => exact Option.noConfusion h
  | cons x t ih =>
    rcases x with ⟨xk, xv⟩
    simp only [lookupKey] at h
    simp only [containsKey, List.any_cons, Bool.or_eq_true, decide_eq_true_eq]
    by_cases hx : xk = k
    · exact Or.inl hx
    · rw [if_neg hx] at h
      exact Or.inr (by simpa [containsKey] using ih h)

lemma containsKey_setKey (d : Doc) (k k' : String) (v : YVal) :
    containsKey (setKey d k v) k' = containsKey d k' := by
  induction d with
  | nil => rfl
  | cons x t ih =>
    by_cases hx : x.1 = k <;>
      simp [setKey, containsKey, List.any_cons, hx] at ih ⊢ <;>
      rw [ih]

lemma lookup_setKey_self {d : Doc} {k : String} (v : YVal)
    (h : containsKey d k = true) : lookupKey (setKey d k v) k = some v := by
  induction d with
  | nil => simp [containsKey] at h
  | cons x t ih =>
    simp only [containsKey, List.any_cons, Bool.or_eq_true,
      decide_eq_true_eq] at h
    have hcons : setKey (x :: t) k v
        = (if x.1 = k then (x.1, v) else x) :: setKey t k v := rfl
    rw [hcons]
    by_cases hx : x.1 = k
    · rw [if_pos hx]
      simp [lookupKey, hx]
    · rw [if_neg hx]
      have ht : containsKey t k = true := by
        rcases h with h | h
        · exact absurd h hx
        · simpa [containsKey] using h
      simp [lookupKey, hx, ih ht]

lemma lookup_setKey_ne {d : Doc} {k k' : String} (v : YVal) (h : k' ≠ k) :
    lookupKey (setKey d k v) k' = lookupKey d k' := by
  induction d with
  | nil => rfl
  | cons x t ih =>
    have hcons : setKey (x :: t) k v
        = (if x.1 = k then (x.1, v) else x) :: setKey t k v := rfl
    rw [hcons]
    by_cases hx : x.1 = k
    · rw [if_pos hx]
      have hx' : x.1 ≠ k' := by rw [hx]; exact fun hh => h hh.symm
      simp [lookupKey, hx', ih]
    · rw [if_neg hx]
      by_cases hx' : x.1 = k' <;> simp [lookupKey, hx', ih]

lemma ensure_ok_lookup {doc : Doc} {ocv : String}
    (h : ensure_chart_version doc = .ok ocv) :
    lookupKey doc "version" = some (.str ocv) := by
  unfold ensure_chart_version at h
  rcases hl : lookupKey doc "version" with - | v
  · rw [hl] at h
    exact Except.noConfusion h
  · rw [hl] at h
    rcases v with s | ⟨t, r⟩
    · have hs : s = ocv := Except.ok.inj h
      rw [hs]
    · exact Except.noConfusion h

lemma classifySpec_self (t : Nat × Nat × Nat) : classifySpec t t = "none" := by
  simp [classifySpec]

/-- An update never touches any path other than its own chart path. -/
lemma update_chart_frame (fs : FS) (p nv rt : String) (q : String)
    (hq : q ≠ p) : (update_chart fs p nv rt).1 q = fs q := by
  unfold update_chart
  repeat' split
  iterate 3
    all_goals try simp_all [fsWrite]
    all_goals try split
  all_goals try simp_all [fsWrite]

/-- The classifier only ever returns one of the four release-type names. -/
lemma determine_values {o : Option YVal} {t : Nat × Nat × Nat} {s : String}
    (h : determine_release_type o t = .ok s) :
    s = "patch" ∨ s = "major" ∨ s = "minor" ∨ s = "none" := by
  unfold determine_release_type at h
  repeat' split at h
  all_goals simp_all

/-- With a caller-forced release type (no `"auto"`), the classifier is not
invoked: the result's release type is the forced one, and the chart is
modified whenever that type is not `"none"`. -/
lemma update_chart_forced {fs : FS} {p nv rt : String} {fs' : FS}
    {r : ChartUpdateResult} (hrt : rt ≠ "auto")
    (h : update_chart fs p nv rt = (fs', .ok r)) :
    r.release_type = rt ∧ (rt ≠ "none" → r.chart_modified = true) := by
  simp only [update_chart] at h
  rcases hl : load_yaml fs p with e | chart <;> simp only [hl] at h
  · simp at h
  rcases he : ensure_chart_version chart with e | ocv <;> simp only [he] at h
  · simp at h
  rcases hx : extract_semver nv with e | mt <;> simp only [hx] at h
  · simp at h
  rcases mt with ⟨ms, nvt⟩
  rcases hdet : (if rt = "auto" then
      determine_release_type (lookupKey chart "appVersion") nvt
    else Except.ok rt) with e | eff <;> simp only [hdet] at h
  · rw [if_neg hrt] at hdet
    exact Except.noConfusion hdet
  have heq : eff = rt := by
    rw [if_neg hrt] at hdet
    exact (Except.ok.inj hdet).symm
  rw [heq] at h
  by_cases heff : rt = "none"
  · rw [heff] at h ⊢
    simp only [ne_eq, not_true_eq_false, if_false, Prod.mk.injEq,
      Except.ok.injEq] at h
    obtain ⟨-, hr⟩ := h
    rw [← hr]
    exact ⟨rfl, fun hc => absurd rfl hc⟩
  · rw [if_pos heff] at h
    rcases hb : bump_semver ocv rt with e | ncv <;> rw [hb] at h
    · simp at h
    · simp only [Prod.mk.injEq, Except.ok.injEq] at h
      obtain ⟨-, hr⟩ := h
      rw [← hr]
      exact ⟨rfl, fun _ => rfl⟩

/-- A successful `"auto"` update resolves to one of the classifier's four
release types (in particular never to `"auto"` itself). -/
lemma update_chart_auto_release {fs : FS} {p nv : String} {fs' : FS}
    {r : ChartUpdateResult} (h : update_chart fs p nv "auto" = (fs', .ok r)) :
    r.release_type = "patch" ∨ r.release_type = "major"
      ∨ r.release_type = "minor" ∨ r.release_type = "none" := by
  simp only [update_chart] at h
  rcases hl : load_yaml fs p with e | chart <;> simp only [hl] at h
  · simp at h
  rcases he : ensure_chart_version chart with e | ocv <;> simp only [he] at h
  · simp at h
  rcases hx : extract_semver nv with e | mt <;> simp only [hx] at h
  · simp at h
  rcases mt with ⟨ms, nvt⟩
  simp only [if_true] at h
  rcases hdet : determine_release_type (lookupKey chart "appVersion") nvt
      with e | eff <;> simp only [hdet] at h
  · simp at h
  have hvals := determine_values hdet
  by_cases heff : eff = "none"
  · subst heff
    simp only [ne_eq, not_true_eq_false, if_false, Prod.mk.injEq,
      Except.ok.injEq] at h
    obtain ⟨-, hr⟩ := h
    subst hr
    exact hvals
  · rw [if_pos heff] at h
    rcases hb : bump_semver ocv eff with e | ncv <;> rw [hb] at h
    · simp at h
    · simp only [Prod.mk.injEq, Except.ok.injEq] at h
      obtain ⟨-, hr⟩ := h
      subst hr
      exact hvals

/-- Claim C4: the parent metadata document is updated exactly when a parent
path was supplied and the primary update's effective release type is not
`none`, and that update is performed with the release type forced to the
primary's resolved effective type — the classifier is not re-invoked
against the parent's own previous `appVersion` (the forced type is not
`"auto"`, so `update_chart` never calls the classifier for the parent). -/
theorem C4_parent_lockstep (fs : FS) (args : Args) (fs' : FS)
    (payload : Payload) (h : handle_update fs args = (fs', .ok payload)) :
    (payload.parent_chart_update.isSome = true
        ↔ (pyStrip args.parent_chart_file ≠ ""
            ∧ payload.release_type ≠ "none"))
    ∧ ((pyStrip args.parent_chart_file = "" ∨ payload.release_type = "none") →
        ∀ q, q ≠ joinPath args.helm_repo_dir args.chart_file → fs' q = fs q)
    ∧ (pyStrip args.parent_chart_file ≠ "" → payload.release_type ≠ "none" →
        ∃ nv mt fs1 r1 pr,
          extract_semver args.release_tag = .ok (nv, mt)
          ∧ update_chart fs (joinPath args.helm_repo_dir args.chart_file) nv
              "auto" = (fs1, .ok r1)
          ∧ r1.release_type = payload.release_type
          ∧ update_chart fs1
              (joinPath args.helm_repo_dir (pyStrip args.parent_chart_file))
              nv payload.release_type = (fs', .ok pr)
          ∧ pr.release_type = payload.release_type
          ∧ pr.chart_modified = true) := by
  simp only [handle_update] at h
  rcases hx : extract_semver args.release_tag with e | nvmt <;>
    simp only [hx] at h
  · simp at h
  rcases nvmt with ⟨nv, mt⟩
  rcases hu : update_chart fs (joinPath args.helm_repo_dir args.chart_file)
      nv "auto" with ⟨fs1, res1⟩
  rcases res1 with e | result <;> simp only [hu] at h
  · simp at h
  by_cases hpc : pyStrip args.parent_chart_file ≠ ""
      ∧ result.release_type ≠ "none"
  · rw [if_pos hpc] at h
    rcases hup : update_chart fs1
        (joinPath args.helm_repo_dir (pyStrip args.parent_chart_file)) nv
        result.release_type with ⟨fs2, res2⟩
    rcases res2 with e | pres <;> simp only [hup] at h
    · simp at h
    have hauto := update_chart_auto_release hu
    have hne : result.release_type ≠ "auto" := by
      rcases hauto with h' | h' | h' | h' <;> simp [h']
    obtain ⟨hpr, hpm⟩ := update_chart_forced hne hup
    have hmod : pres.chart_modified = true := hpm hpc.2
    rw [if_pos hmod] at h
    simp only [Prod.mk.injEq, Except.ok.injEq] at h
    obtain ⟨hfs2, hpl⟩ := h
    subst hpl
    refine ⟨?_, ?_, ?_⟩
    · constructor
      · intro _
        exact ⟨hpc.1, by simpa [mkPayload] using hpc.2⟩
      · intro _
        simp [mkPayload]
    · intro hcase
      exfalso
      rcases hcase with hc | hc
      · exact hpc.1 hc
      · exact hpc.2 (by simpa [mkPayload] using hc)
    · intro _ _
      refine ⟨nv, mt, fs1, result, pres, rfl, hu, by simp [mkPayload], ?_, ?_,
        hmod⟩
      · exact hfs2 ▸ hup
      · exact hpr
  · rw [if_neg hpc] at h
    simp only [Prod.mk.injEq, Except.ok.injEq] at h
    obtain ⟨hfs1, hpl⟩ := h
    subst hpl
    refine ⟨?_, ?_, ?_⟩
    · constructor
      · intro habs
        simp [mkPayload] at habs
      · intro hcond
        exact absurd ⟨hcond.1, by simpa [mkPayload] using hcond.2⟩ hpc
    · intro _ q hq
      have hf : fs1 q = fs q := by
        have hfr := update_chart_frame fs
          (joinPath args.helm_repo_dir args.chart_file) nv "auto" q hq
        rwa [hu] at hfr
      rw [← hfs1]
      exact hf
    · intro h1 h2
      exact absurd ⟨h1, by simpa [mkPayload] using h2⟩ hpc

/-- Filesystem of the C4 witness scenario: a chart whose `appVersion`
already equals the tag's version, so the update resolves to `none`. -/
def c4FS : FS := fun q =>
  if q = "repo/Chart.yaml" then
    some [("appVersion", YVal.str "1.0.0"), ("version", YVal.str "0.1.0")]
  else none

/-- Arguments of the C4 witness scenario (a parent path is supplied, but
the primary update is a no-op, so the parent must not be touched). -/
def c4Args : Args :=
  { helm_repo_dir := "repo", chart_file := "Chart.yaml"
    parent_chart_file := "parent/Chart.yaml", release_tag := "v1.0.0"
    result_file := "", app_name := "", github_output := "" }

/-- Payload produced in the C4 witness scenario. -/
def c4Payload : Payload :=
  { old_app_version := "1.0.0", new_app_version := "1.0.0"
    old_chart_version := "0.1.0", new_chart_version := "0.1.0"
    release_type := "none", chart_modified := false
    parent_chart_update := none, branch_name := "", has_changes := false }

theorem C4_parent_lockstep_witness :
    handle_update c4FS c4Args = (c4FS, .ok c4Payload)
    ∧ (c4Payload.parent_chart_update.isSome = true
        ↔ (pyStrip c4Args.parent_chart_file ≠ ""
            ∧ c4Payload.release_type ≠ "none")) :=
  ⟨rfl, (C4_parent_lockstep c4FS c4Args c4FS c4Payload rfl).1⟩

/-- Filesystem refuting the literal idempotence claim: a single chart
document without an `appVersion` key. -/
def c5FS : FS := fun q =>
  if q = "p" then some [("version", YVal.str "0.1.0")] else none

/-- Counterexample to claim C5 as stated: on a document without an
`appVersion` key, an `auto` update succeeds (release type `patch`), and
re-running on the resulting document with the same new version classifies
as `patch` again and modifies the chart again — not `none` / unmodified. -/
theorem C5_counterexample :
    (update_chart c5FS "p" "1.0.0" "auto").2
      = .ok { old_app_version := "", new_app_version := "1.0.0"
              old_chart_version := "0.1.0", new_chart_version := "0.1.1"
              release_type := "patch", chart_modified := true }
    ∧ (update_chart (update_chart c5FS "p" "1.0.0" "auto").1 "p" "1.0.0"
          "auto").2
      = .ok { old_app_version := "", new_app_version := "1.0.0"
              old_chart_version := "0.1.1", new_chart_version := "0.1.2"
              release_type := "patch", chart_modified := true }
    ∧ ("patch" : String) ≠ "none" ∧ (true : Bool) ≠ false :=
  ⟨rfl, rfl, by decide, by decide⟩

/-- Claim C5 amended: for every metadata document that contains an
`appVersion` key, once an `auto` update with some new version has
succeeded, running the update again on the resulting filesystem with the
same new version yields release type `none` and `chart_modified = false`
and leaves the filesystem unchanged. -/
theorem C5_idempotent_with_appversion (fs : FS) (p nv : String) (doc : Doc)
    (r1 : ChartUpdateResult) (hd : fs p = some doc)
    (hav : containsKey doc "appVersion" = true)
    (h1 : (update_chart fs p nv "auto").2 = .ok r1) :
    ∃ r2, update_chart (update_chart fs p nv "auto").1 p nv "auto"
        = ((update_chart fs p nv "auto").1, .ok r2)
      ∧ r2.release_type = "none" ∧ r2.chart_modified = false := by
  rcases hu : update_chart fs p nv "auto" with ⟨fs1, res1⟩
  rw [hu] at h1
  have hres : res1 = .ok r1 := h1
  subst hres
  simp only [hu]
  have hl : load_yaml fs p = .ok doc := by simp [load_yaml, hd]
  simp only [update_chart, hl] at hu
  rcases he : ensure_chart_version doc with e | ocv <;> simp only [he] at hu
  · simp at hu
  rcases hx : extract_semver nv with e | mt <;> simp only [hx] at hu
  · simp at hu
  rcases mt with ⟨ms, nvt⟩
  simp only [if_true] at hu
  rcases hdet : determine_release_type (lookupKey doc "appVersion") nvt
      with e | eff <;> simp only [hdet] at hu
  · simp at hu
  by_cases heff : eff = "none"
  · subst heff
    simp only [ne_eq, not_true_eq_false, if_false, Prod.mk.injEq,
      Except.ok.injEq] at hu
    obtain ⟨hfs, -⟩ := hu
    subst hfs
    refine ⟨{ old_app_version := optStr (lookupKey doc "appVersion")
              new_app_version := nv, old_chart_version := ocv
              new_chart_version := ocv, release_type := "none"
              chart_modified := false }, ?_, rfl, rfl⟩
    simp only [update_chart, hl, he, hx, if_true, hdet]
    simp
  · rw [if_pos heff] at hu
    rcases hb : bump_semver ocv eff with e | ncv <;> rw [hb] at hu
    · simp at hu
    simp only [Prod.mk.injEq, Except.ok.injEq] at hu
    obtain ⟨hfs, -⟩ := hu
    rw [if_pos hav] at hfs
    subst hfs
    have hl2 : load_yaml
        (fsWrite fs p
          (setKey (setKey doc "appVersion" (YVal.str nv)) "version"
            (YVal.str ncv))) p
        = .ok (setKey (setKey doc "appVersion" (YVal.str nv)) "version"
            (YVal.str ncv)) := by
      simp [load_yaml, fsWrite]
    have hck2 : containsKey doc "version" = true :=
      containsKey_of_lookup (ensure_ok_lookup he)
    have hlav : lookupKey
        (setKey (setKey doc "appVersion" (YVal.str nv)) "version"
          (YVal.str ncv)) "appVersion" = some (.str nv) := by
      rw [lookup_setKey_ne _ (by decide)]
      exact lookup_setKey_self _ hav
    have hver : lookupKey
        (setKey (setKey doc "appVersion" (YVal.str nv)) "version"
          (YVal.str ncv)) "version" = some (.str ncv) := by
      apply lookup_setKey_self
      rw [containsKey_setKey]
      exact hck2
    have he2 : ensure_chart_version
        (setKey (setKey doc "appVersion" (YVal.str nv)) "version"
          (YVal.str ncv)) = .ok ncv := by
      unfold ensure_chart_version
      rw [hver]
    have hdet2 : determine_release_type (some (.str nv)) nvt = .ok "none" := by
      rw [determine_char nvt hx]
      simp [tupleLt_irrefl, classifySpec_self]
    refine ⟨{ old_app_version := nv, new_app_version := nv
              old_chart_version := ncv, new_chart_version := ncv
              release_type := "none", chart_modified := false }, ?_, rfl, rfl⟩
    simp only [update_chart, hl2, he2, hx, if_true, hlav, hdet2]
    simp [optStr, YVal.toStr]

/-- Filesystem of the amended-C5 witness: a chart document that does have
an `appVersion` key. -/
def c5aFS : FS := fun q =>
  if q = "p" then
    some [("appVersion", YVal.str "0.9.0"), ("version", YVal.str "0.1.0")]
  else none

theorem C5_idempotent_with_appversion_witness :
    (c5aFS "p"
        = some [("appVersion", YVal.str "0.9.0"),
            ("version", YVal.str "0.1.0")]
      ∧ containsKey
          [("appVersion", YVal.str "0.9.0"), ("version", YVal.str "0.1.0")]
          "appVersion" = true
      ∧ (update_chart c5aFS "p" "1.0.0" "auto").2
          = .ok { old_app_version := "0.9.0", new_app_version := "1.0.0"
                  old_chart_version := "0.1.0", new_chart_version := "1.0.0"
                  release_type := "major", chart_modified := true })
    ∧ (∃ r2, update_chart (update_chart c5aFS "p" "1.0.0" "auto").1 "p"
          "1.0.0" "auto"
        = ((update_chart c5aFS "p" "1.0.0" "auto").1, .ok r2)
      ∧ r2.release_type = "none" ∧ r2.chart_modified = false) :=
  ⟨⟨rfl, rfl, rfl⟩,
    C5_idempotent_with_appversion c5aFS "p" "1.0.0"
      [("appVersion", YVal.str "0.9.0"), ("version", YVal.str "0.1.0")]
      { old_app_version := "0.9.0", new_app_version := "1.0.0"
        old_chart_version := "0.1.0", new_chart_version := "1.0.0"
        release_type := "major", chart_modified := true } rfl rfl rfl⟩

/-- Document of the C10 witness scenario, with keys beyond the two version
fields. -/
def c10Doc : Doc :=
  [("name", .str "app"), ("version", .str "1.0.0"),
   ("appVersion", .str "1.0.0"), ("extra", .other true "42")]

/-- The C10 witness document after the update: only `version` and
`appVersion` changed. -/
def c10Doc2 : Doc :=
  [("name", .str "app"), ("version", .str "2.0.0"),
   ("appVersion", .str "2.0.0"), ("extra", .other true "42")]

/-- Filesystem of the C10 witness scenario. -/
def c10FS : FS := fun q => if q = "c" then some c10Doc else none

/-- Result of the C10 witness update. -/
def c10Res : ChartUpdateResult :=
  { old_app_version := "1.0.0", new_app_version := "2.0.0"
    old_chart_version := "1.0.0", new_chart_version := "2.0.0"
    release_type := "major", chart_modified := true }

theorem C10_update_touches_only_versions_witness :
    (update_chart c10FS "c" "2.0.0" "auto"
        = (fsWrite c10FS "c" c10Doc2, .ok c10Res)
      ∧ c10FS "c" = some c10Doc)
    ∧ (∃ doc', fsWrite c10FS "c" c10Doc2 "c" = some doc'
        ∧ List.Forall₂ FrameRel c10Doc doc'
        ∧ (containsKey c10Doc "appVersion" = false →
            containsKey doc' "appVersion" = false)) :=
  ⟨⟨rfl, rfl⟩,
    C10_update_touches_only_versions c10FS "c" "2.0.0" "auto"
      (fsWrite c10FS "c" c10Doc2) c10Res c10Doc rfl rfl⟩

end UpdateHelmChart
